import Mathlib

/-!
Shallow embedding of `src/firmware/application/src/rfid/reader/hf/iso14443_4_transceiver.c`
(the ISO/IEC 14443-4 block-protocol engine) and proofs about it.

Bytes and machine integers are modelled as `Nat`; all values the source
manipulates stay far below every relevant width (`uint8`/`uint16`), and the
source performs no wrapping arithmetic, so no explicit `% 2 ^ w` is needed:
the only arithmetic is `rx_bits / 8`, `rx_bytes - 2/3` (guarded by
`rx_bits ≥ 24`), and the bit operations `&`, `|`, `^` on byte values.

The CRC primitive (`crc_14a_calculate` / `crc_14a_append`) lives outside this
translation unit and is consumed abstractly: every definition is parametrised
by `crc : List Nat → Nat × Nat`, the function from a byte sequence to the two
CRC trailer bytes.  The raw exchange primitive
(`pcd_14a_reader_bytes_transfer`) is likewise consumed abstractly as a `Tag`
oracle giving, for each exchange of a call, the status code, received bit
count and bytes it wrote into the frame buffer.
-/

namespace Iso14443

/-- Status code of a successful raw exchange (`STATUS_HF_TAG_OK`, declared in
`rfid_main.h` outside this translation unit).  The source only compares
status values for equality with it, so its concrete value is immaterial. -/
def STATUS_HF_TAG_OK : Nat := 0

/-- The WTX round ceiling: `const int WTX_MAX = 10;` in
`iso14443_4_transceive`. -/
def WTX_MAX : Nat := 10

/-- Result of one raw exchange (`pcd_14a_reader_bytes_transfer`): the returned
status code, the received bit count written through `rx_bits`, and the bytes
the primitive wrote into the caller's frame buffer. -/
structure Exchange where
  status : Nat
  rxBits : Nat
  data : List Nat
deriving DecidableEq

/-- A tag oracle: the result the raw exchange primitive produces for the
`n`-th exchange of one `transceive` call, given the transmitted frame. -/
def Tag : Type := Nat → List Nat → Exchange

/-- Caller-visible mutable state surrounding one `iso14443_4_transceive`
call: the session sequence bit `g_pcb_block_num`, the caller's `rx_data`
buffer contents and `*rx_len` out-parameter, and — model instrumentation —
the ordered log of frames the engine has handed to the raw exchange
primitive for transmission. -/
structure TState where
  blockNum : Nat
  rxLen : Nat
  rxData : List Nat
  txLog : List (List Nat)
deriving DecidableEq

/-- Model of `iso14443_4_reset_block_num`: sets `g_pcb_block_num = 0`. -/
def iso14443_4_reset_block_num (st : TState) : TState :=
  { st with blockNum := 0 }

/-- The raw primitive writes its received bytes into the 260-byte frame buffer
starting at index 0 (it is handed capacity `sizeof(buffer) * 8` bits, so at
most 260 bytes); buffer bytes beyond what it wrote keep their previous
(stale) contents. -/
def overlayWrite (old newData : List Nat) : List Nat :=
  newData.take 260 ++ old.drop (min newData.length 260)

/-- The outbound I-block frame `iso14443_4_transceive` constructs in
`buffer` (lines 19–23): `buffer[0] = 0x02 | (g_pcb_block_num & 0x01)`, then
`tx_len` payload bytes, then the 2-byte CRC over PCB plus payload appended by
`crc_14a_append(buffer, 1 + tx_len)`. -/
def iso14443_4_frame (crc : List Nat → Nat × Nat) (blockNum : Nat)
    (txData : List Nat) : List Nat :=
  let body := (0x02 ||| (blockNum &&& 1)) :: txData
  body ++ [(crc body).1, (crc body).2]

/-- The S(WTX) frame `[0xF2][multiplier][CRC low][CRC high]` with the trailer
computed over the two bytes `0xF2` and the multiplier (`wtx_resp` built at
lines 55–58; the tag's own S(WTX) request frame has the same shape). -/
def wtxFrame (crc : List Nat → Nat × Nat) (m : Nat) : List Nat :=
  [0xF2, m] ++ [(crc [0xF2, m]).1, (crc [0xF2, m]).2]

/-- The response-classification loop of `iso14443_4_transceive`
(`while (1) { ... }`, lines 29–78), translated clause by clause: the
status/length gate, the CRC trailer check, the PCB top-two-bit dispatch, the
`g_pcb_block_num` toggle and capacity check of the I-block branch, and the
WTX branch (echo transmission, counter increment, `wtx_count > WTX_MAX`
guard, `continue`).  `fuel` is a structural recursion bound; the theorem
`classifyLoop_fuel_irrelevant` shows it never decides the result at the call
pattern the source corresponds to (`fuel = WTX_MAX + 1`, `wtxCount = 0`),
because the source's own `wtx_count > WTX_MAX` guard always exits first. -/
def classifyLoop (crc : List Nat → Nat × Nat) (tag : Tag) (maxRxLen : Nat) :
    Nat → Nat → Nat → List Nat → Nat → Nat → TState → Bool × TState
  | 0, _, _, _, _, _, st => (false, st)
  | fuel + 1, status, rxBits, buffer, round, wtxCount, st =>
    if status ≠ STATUS_HF_TAG_OK ∨ rxBits < 3 * 8 then
      (false, st)
    else
      let rxBytes := rxBits / 8
      let crcCalc := crc (buffer.take (rxBytes - 2))
      if buffer.getD (rxBytes - 2) 0 ≠ crcCalc.1 ∨
          buffer.getD (rxBytes - 1) 0 ≠ crcCalc.2 then
        (false, st)
      else
        let pcbType := buffer.getD 0 0 &&& 0xC0
        if pcbType = 0x00 then
          let st1 := { st with blockNum := st.blockNum ^^^ 1 }
          if rxBytes - 3 > maxRxLen then
            (false, st1)
          else
            (true, { st1 with
              rxLen := rxBytes - 3,
              rxData := (buffer.drop 1).take (rxBytes - 3) ++
                st1.rxData.drop (rxBytes - 3) })
        else if pcbType = 0xC0 then
          if buffer.getD 0 0 &&& 0x3F = 0x32 ∧ 4 ≤ rxBytes then
            let wtxResp := wtxFrame crc (buffer.getD 1 0)
            let ex := tag round wtxResp
            let st1 := { st with txLog := st.txLog ++ [wtxResp] }
            if wtxCount + 1 > WTX_MAX then
              (false, st1)
            else
              classifyLoop crc tag maxRxLen fuel ex.status ex.rxBits
                (overlayWrite buffer ex.data) (round + 1) (wtxCount + 1) st1
          else
            (false, st)
        else
          (false, st)

/-- Model of `iso14443_4_transceive` exactly as the source stands: the
I-block frame is constructed in `buffer` (PCB, payload, CRC trailer), but no
raw exchange is performed before the classification loop is entered —
`rx_bits` reaches the first classification still holding its initialiser
`0`, and `status` reaches it uninitialised (modelled by the arbitrary
parameter `status0`). -/
def iso14443_4_transceive (crc : List Nat → Nat × Nat) (tag : Tag)
    (status0 : Nat) (txData : List Nat) (maxRxLen : Nat) (st : TState) :
    Bool × TState :=
  let buffer := iso14443_4_frame crc st.blockNum txData
  let rxBits := 0
  classifyLoop crc tag maxRxLen (WTX_MAX + 1) status0 rxBits buffer 0 0 st

/-- The exchange result the raw primitive returns for the constructed
I-block frame at the start of a call. -/
def initExchange (crc : List Nat → Nat × Nat) (tag : Tag)
    (txData : List Nat) (st : TState) : Exchange :=
  tag 0 (iso14443_4_frame crc st.blockNum txData)

/-- Frame-buffer contents after the initial exchange: the received bytes
written over the constructed I-block frame. -/
def initBuffer (crc : List Nat → Nat × Nat) (tag : Tag)
    (txData : List Nat) (st : TState) : List Nat :=
  overlayWrite (iso14443_4_frame crc st.blockNum txData)
    (initExchange crc tag txData st).data

/-- Modelled from the spec: the initial raw exchange is missing from the
source — `iso14443_4_transceive` builds the I-block frame but never hands it
to `pcd_14a_reader_bytes_transfer` before classifying, and spec §4.1 step 2
together with §9 declares explicit transmit-then-classify authoritative and
the omission a source defect.  This definition inserts that single missing
exchange (transmit the constructed frame, receive into the frame buffer,
classify that exchange's status and bit count) and otherwise follows the
source line by line via `classifyLoop`. -/
def iso14443_4_transceive_fixed (crc : List Nat → Nat × Nat) (tag : Tag)
    (txData : List Nat) (maxRxLen : Nat) (st : TState) : Bool × TState :=
  let ex := initExchange crc tag txData st
  let st1 := { st with
    txLog := st.txLog ++ [iso14443_4_frame crc st.blockNum txData] }
  classifyLoop crc tag maxRxLen (WTX_MAX + 1) ex.status ex.rxBits
    (initBuffer crc tag txData st) 1 0 st1

/-- The PCB byte the next call of `iso14443_4_transceive` will place at
index 0 of its outbound frame, as a function of the session state. -/
def firstPcb (st : TState) : Nat := 0x02 ||| (st.blockNum &&& 1)

/-- Observer with the same recursion structure and branch conditions as
`classifyLoop`: whether the run terminates in the I-block branch — the one
place where the source executes `g_pcb_block_num ^= 1`, entered both by the
successful return and by the capacity-check (buffer overflow) failure. -/
def loopHitsIBlock (crc : List Nat → Nat × Nat) (tag : Tag) (maxRxLen : Nat) :
    Nat → Nat → Nat → List Nat → Nat → Nat → Bool
  | 0, _, _, _, _, _ => false
  | fuel + 1, status, rxBits, buffer, round, wtxCount =>
    if status ≠ STATUS_HF_TAG_OK ∨ rxBits < 3 * 8 then
      false
    else
      let rxBytes := rxBits / 8
      let crcCalc := crc (buffer.take (rxBytes - 2))
      if buffer.getD (rxBytes - 2) 0 ≠ crcCalc.1 ∨
          buffer.getD (rxBytes - 1) 0 ≠ crcCalc.2 then
        false
      else
        let pcbType := buffer.getD 0 0 &&& 0xC0
        if pcbType = 0x00 then
          true
        else if pcbType = 0xC0 then
          if buffer.getD 0 0 &&& 0x3F = 0x32 ∧ 4 ≤ rxBytes then
            let wtxResp := wtxFrame crc (buffer.getD 1 0)
            let ex := tag round wtxResp
            if wtxCount + 1 > WTX_MAX then
              false
            else
              loopHitsIBlock crc tag maxRxLen fuel ex.status ex.rxBits
                (overlayWrite buffer ex.data) (round + 1) (wtxCount + 1)
          else
            false
        else
          false

/-- Whether a call of the (spec-completed) transceive routine terminates in
the I-block branch, where the source toggles `g_pcb_block_num`. -/
def transceiveHitsIBlock (crc : List Nat → Nat × Nat) (tag : Tag)
    (txData : List Nat) (maxRxLen : Nat) (st : TState) : Bool :=
  loopHitsIBlock crc tag maxRxLen (WTX_MAX + 1)
    (initExchange crc tag txData st).status
    (initExchange crc tag txData st).rxBits
    (initBuffer crc tag txData st) 1 0

/-! Concrete fixtures used by closed counterexamples and witnesses. -/

/-- A degenerate CRC function (always `(0, 0)`); the engine consumes the CRC
primitive abstractly, so any instantiation exercises it. -/
def crcZero : List Nat → Nat × Nat := fun _ => (0, 0)

/-- A concrete pre-call state with a non-trivial caller buffer, so that
claims about the caller's outputs being untouched are observable. -/
def stW : TState := { blockNum := 0, rxLen := 0, rxData := [7, 7], txLog := [] }

/-- A tag that answers every exchange with the same S(WTX) request carrying
multiplier `m` (status OK, 32 bits = 4 bytes). -/
def tagAllWtx (crc : List Nat → Nat × Nat) (m : Nat) : Tag :=
  fun _ _ => ⟨STATUS_HF_TAG_OK, 32, wtxFrame crc m⟩

/-- A valid 5-byte I-block response frame: PCB `0x02`, payload
`[0x90, 0x00]`, CRC trailer. -/
def iblockFrame (crc : List Nat → Nat × Nat) : List Nat :=
  [0x02, 0x90, 0x00] ++ [(crc [0x02, 0x90, 0x00]).1, (crc [0x02, 0x90, 0x00]).2]

/-- Data returned by the `k`-WTX tag on its `r`-th exchange: an S(WTX)
request for the first `k` exchanges, then the valid I-block response. -/
def tagKWtxData (crc : List Nat → Nat × Nat) (m k r : Nat) : List Nat :=
  if r < k then wtxFrame crc m else iblockFrame crc

/-- Bit count returned by the `k`-WTX tag on its `r`-th exchange. -/
def tagKWtxBits (k r : Nat) : Nat :=
  if r < k then 32 else 40

/-- A tag that answers the first `k` exchanges with an S(WTX) request
carrying multiplier `m` and every later exchange with a valid I-block
response (payload `[0x90, 0x00]`). -/
def tagKWtx (crc : List Nat → Nat × Nat) (m k : Nat) : Tag :=
  fun r _ => ⟨STATUS_HF_TAG_OK, tagKWtxBits k r, tagKWtxData crc m k r⟩

example : (0xF2 &&& 0xC0 : Nat) = 0xC0 := by decide
example : (0xF2 &&& 0x3F : Nat) = 0x32 := by decide
example : (0xB2 &&& 0xC0 : Nat) = 0x80 := by decide
example : (0x02 ||| (0 &&& 1) : Nat) = 0x02 := by decide



theorem classifyLoop_fuel_irrelevant (crc : List Nat → Nat × Nat) (tag : Tag)
    (maxRxLen : Nat) :
    ∀ f1 f2 status rxBits buffer round wtxCount st,
    WTX_MAX - wtxCount < f1 → WTX_MAX - wtxCount < f2 →
    classifyLoop crc tag maxRxLen f1 status rxBits buffer round wtxCount st =
      classifyLoop crc tag maxRxLen f2 status rxBits buffer round wtxCount st := by
  intro f1
  induction f1 with
  | zero => intro f2 status rxBits buffer round wtxCount st h1 h2; omega
  | succ f ih =>
    intro f2 status rxBits buffer round wtxCount st h1 h2
    match f2 with
    | 0 => omega
    | g + 1 =>
      simp only [classifyLoop]
      repeat' split
      all_goals first
        | rfl
        | (apply ih <;> (unfold WTX_MAX at *; omega))


theorem classifyLoop_fail_outputs (crc : List Nat → Nat × Nat) (tag : Tag)
    (maxRxLen : Nat) :
    ∀ fuel status rxBits buffer round wtxCount st,
    (classifyLoop crc tag maxRxLen fuel status rxBits buffer round wtxCount st).1 = false →
    (classifyLoop crc tag maxRxLen fuel status rxBits buffer round wtxCount st).2.rxLen = st.rxLen ∧
    (classifyLoop crc tag maxRxLen fuel status rxBits buffer round wtxCount st).2.rxData = st.rxData := by
  intro fuel
  induction fuel with
  | zero => intro status rxBits buffer round wtxCount st _; simp [classifyLoop]
  | succ f ih =>
    intro status rxBits buffer round wtxCount st
    simp only [classifyLoop]
    repeat' split
    all_goals intro h
    all_goals first
      | (simp_all; done)
      | exact ih _ _ _ _ _ _ h

theorem classifyLoop_txLog_extend (crc : List Nat → Nat × Nat) (tag : Tag)
    (maxRxLen : Nat) :
    ∀ fuel status rxBits buffer round wtxCount st,
    ∃ t, (classifyLoop crc tag maxRxLen fuel status rxBits buffer round wtxCount st).2.txLog =
      st.txLog ++ t := by
  intro fuel
  induction fuel with
  | zero => intro status rxBits buffer round wtxCount st; exact ⟨[], by simp [classifyLoop]⟩
  | succ f ih =>
    intro status rxBits buffer round wtxCount st
    simp only [classifyLoop]
    repeat' split
    all_goals first
      | (refine ⟨[], ?_⟩; simp; done)
      | (refine ⟨[wtxFrame crc (buffer.getD 1 0)], ?_⟩; simp; done)
      | (obtain ⟨t, ht⟩ := ih (tag round (wtxFrame crc (buffer.getD 1 0))).status
          (tag round (wtxFrame crc (buffer.getD 1 0))).rxBits
          (overlayWrite buffer (tag round (wtxFrame crc (buffer.getD 1 0))).data)
          (round + 1) (wtxCount + 1)
          { st with txLog := st.txLog ++ [wtxFrame crc (buffer.getD 1 0)] }
         exact ⟨wtxFrame crc (buffer.getD 1 0) :: t, by simpa using ht⟩)

theorem classifyLoop_blockNum (crc : List Nat → Nat × Nat) (tag : Tag)
    (maxRxLen : Nat) :
    ∀ fuel status rxBits buffer round wtxCount st,
    (classifyLoop crc tag maxRxLen fuel status rxBits buffer round wtxCount st).2.blockNum =
      cond (loopHitsIBlock crc tag maxRxLen fuel status rxBits buffer round wtxCount)
        (st.blockNum ^^^ 1) st.blockNum := by
  intro fuel
  induction fuel with
  | zero => intro status rxBits buffer round wtxCount st; simp [classifyLoop, loopHitsIBlock]
  | succ f ih =>
    intro status rxBits buffer round wtxCount st
    simp only [classifyLoop, loopHitsIBlock]
    repeat' split
    all_goals first
      | (simp; done)
      | (have h := ih (tag round (wtxFrame crc (buffer.getD 1 0))).status
          (tag round (wtxFrame crc (buffer.getD 1 0))).rxBits
          (overlayWrite buffer (tag round (wtxFrame crc (buffer.getD 1 0))).data)
          (round + 1) (wtxCount + 1)
          { st with txLog := st.txLog ++ [wtxFrame crc (buffer.getD 1 0)] }
         simpa using h)

theorem classifyLoop_true_hits (crc : List Nat → Nat × Nat) (tag : Tag)
    (maxRxLen : Nat) :
    ∀ fuel status rxBits buffer round wtxCount st,
    (classifyLoop crc tag maxRxLen fuel status rxBits buffer round wtxCount st).1 = true →
    loopHitsIBlock crc tag maxRxLen fuel status rxBits buffer round wtxCount = true := by
  intro fuel
  induction fuel with
  | zero => intro status rxBits buffer round wtxCount st h; simp [classifyLoop] at h
  | succ f ih =>
    intro status rxBits buffer round wtxCount st
    simp only [classifyLoop, loopHitsIBlock]
    repeat' split
    all_goals intro h
    all_goals first
      | (simp_all; done)
      | exact ih _ _ _ _ _ _ h




/-- C1: the claim states that every call of `iso14443_4_transceive` transmits
the constructed I-block frame via the raw exchange primitive before its first
response classification, the first classification reading that transmission's
status and bit count.  The source does the opposite: no exchange happens —
for every CRC function, tag behaviour, payload, capacity, state, and
whatever value the uninitialised `status` variable happens to hold, the call
returns `false` with the caller-visible state (including the transmission
log) completely unchanged, because the first classification reads
`rx_bits = 0` (its initialiser) and fails the 3-byte minimum-length gate. -/
theorem C1_transceive_never_transmits :
    ∀ (crc : List Nat → Nat × Nat) (tag : Tag) (status0 : Nat)
      (txData : List Nat) (maxRxLen : Nat) (st : TState),
    iso14443_4_transceive crc tag status0 txData maxRxLen st = (false, st) := by
  intro crc tag status0 txData maxRxLen st
  simp only [iso14443_4_transceive, classifyLoop]
  have h : status0 ≠ STATUS_HF_TAG_OK ∨ (0 : Nat) < 3 * 8 := Or.inr (by norm_num)
  rw [if_pos h]

/-- C9: the frame construction writes exactly `tx_len + 3` bytes (PCB at
index 0, `tx_len` payload bytes from index 1, the 2-byte CRC trailer at
indices `tx_len + 1` and `tx_len + 2`), so the writes stay within the
260-byte frame buffer iff `tx_len ≤ 257`; and the engine performs no check
of `tx_len` — the frame is built (and, in the spec-completed routine,
transmitted) for every payload length whatsoever, in-bounds access being a
caller precondition. -/
theorem C9_frame_bounds :
    ∀ (crc : List Nat → Nat × Nat) (st : TState) (txData : List Nat),
    (iso14443_4_frame crc st.blockNum txData).length = txData.length + 3 ∧
    ((iso14443_4_frame crc st.blockNum txData).length ≤ 260 ↔
      txData.length ≤ 257) ∧
    ∀ (tag : Tag) (maxRxLen : Nat),
      ∃ rest, (iso14443_4_transceive_fixed crc tag txData maxRxLen st).2.txLog =
        st.txLog ++ iso14443_4_frame crc st.blockNum txData :: rest := by
  intro crc st txData
  refine ⟨by simp [iso14443_4_frame], ?_, ?_⟩
  · simp [iso14443_4_frame]
  · intro tag maxRxLen
    obtain ⟨t, ht⟩ := classifyLoop_txLog_extend crc tag maxRxLen (WTX_MAX + 1)
      (initExchange crc tag txData st).status
      (initExchange crc tag txData st).rxBits
      (initBuffer crc tag txData st) 1 0
      { st with txLog := st.txLog ++ [iso14443_4_frame crc st.blockNum txData] }
    exact ⟨t, by simpa [iso14443_4_transceive_fixed] using ht⟩




/-- A tag whose single response is a valid (under `crcZero`) I-block frame
with 1-byte payload `0xAA`. -/
def tagIBlockOk : Tag := fun _ _ => ⟨STATUS_HF_TAG_OK, 32, [0x02, 0xAA, 0, 0]⟩

/-- A tag whose exchange reports a non-success status (transport error). -/
def tagTransportErr : Tag := fun _ _ => ⟨STATUS_HF_TAG_OK + 1, 0, []⟩

/-- A tag whose reply is only 2 bytes — under the 3-byte protocol minimum. -/
def tagShortFrame : Tag := fun _ _ => ⟨STATUS_HF_TAG_OK, 16, [0x02, 0]⟩

/-- A tag whose reply carries a CRC trailer that does not match `crcZero`. -/
def tagBadCrc : Tag := fun _ _ => ⟨STATUS_HF_TAG_OK, 32, [0x02, 0xAA, 1, 1]⟩

/-- A tag whose reply has PCB `0xB2`: top two bits `10`, low six bits
`0x32`, valid CRC under `crcZero`, 4 bytes long. -/
def tagTopBits10 : Tag := fun _ _ => ⟨STATUS_HF_TAG_OK, 32, [0xB2, 2, 0, 0]⟩

/-- A tag whose reply is an S-block of a non-WTX subtype (PCB `0xC2`,
S(DESELECT) shape), valid CRC under `crcZero`. -/
def tagDeselect : Tag := fun _ _ => ⟨STATUS_HF_TAG_OK, 24, [0xC2, 0, 0]⟩

/-- C2 counterexample: a failing call after which `g_pcb_block_num` differs
from its pre-call value.  The tag answers with a well-formed, CRC-valid
I-block whose 1-byte payload exceeds the caller capacity `0`: the source
executes `g_pcb_block_num ^= 1` *before* the capacity check, so the call
fails (buffer overflow) with the sequence bit already toggled. -/
theorem C2_counterexample :
    (iso14443_4_transceive_fixed crcZero tagIBlockOk [0xA2] 0 stW).1 = false ∧
    (iso14443_4_transceive_fixed crcZero tagIBlockOk [0xA2] 0 stW).2.blockNum ≠
      stW.blockNum := by
  decide

/-- C2 amended: `g_pcb_block_num` is mutated (toggled) exactly when the call
terminates in the I-block branch — on the successful path and on the
buffer-overflow failure, the toggle preceding the capacity check — and is
left unchanged by every other failure path and by every WTX round. -/
theorem C2_blockNum_characterisation :
    ∀ (crc : List Nat → Nat × Nat) (tag : Tag) (txData : List Nat)
      (maxRxLen : Nat) (st : TState),
    (iso14443_4_transceive_fixed crc tag txData maxRxLen st).2.blockNum =
      cond (transceiveHitsIBlock crc tag txData maxRxLen st)
        (st.blockNum ^^^ 1) st.blockNum ∧
    ((iso14443_4_transceive_fixed crc tag txData maxRxLen st).1 = true →
      transceiveHitsIBlock crc tag txData maxRxLen st = true) := by
  intro crc tag txData maxRxLen st
  constructor
  · have h := classifyLoop_blockNum crc tag maxRxLen (WTX_MAX + 1)
      (initExchange crc tag txData st).status
      (initExchange crc tag txData st).rxBits
      (initBuffer crc tag txData st) 1 0
      { st with txLog := st.txLog ++ [iso14443_4_frame crc st.blockNum txData] }
    simpa [iso14443_4_transceive_fixed, transceiveHitsIBlock] using h
  · intro h
    have h2 := classifyLoop_true_hits crc tag maxRxLen (WTX_MAX + 1)
      (initExchange crc tag txData st).status
      (initExchange crc tag txData st).rxBits
      (initBuffer crc tag txData st) 1 0
      { st with txLog := st.txLog ++ [iso14443_4_frame crc st.blockNum txData] }
      (by simpa [iso14443_4_transceive_fixed] using h)
    simpa [transceiveHitsIBlock] using h2

/-- C2 amended witness at a concrete input: a successful I-block exchange
(the implication's hypothesis holds), where the characterisation gives the
toggle. -/
theorem C2_witness :
    (iso14443_4_transceive_fixed crcZero tagIBlockOk [0xA2] 2 stW).2.blockNum =
      cond (transceiveHitsIBlock crcZero tagIBlockOk [0xA2] 2 stW)
        (stW.blockNum ^^^ 1) stW.blockNum ∧
    transceiveHitsIBlock crcZero tagIBlockOk [0xA2] 2 stW = true :=
  ⟨(C2_blockNum_characterisation crcZero tagIBlockOk [0xA2] 2 stW).1,
   (C2_blockNum_characterisation crcZero tagIBlockOk [0xA2] 2 stW).2 (by decide)⟩

/-- C10: every failing call leaves both caller-visible outputs untouched —
no byte of `rx_data` is written and `*rx_len` is not assigned; the source
reaches `*rx_len = ...; memcpy(rx_data, ...)` only on the successful
I-block return, after every failure check has passed. -/
theorem C10_fail_leaves_outputs :
    ∀ (crc : List Nat → Nat × Nat) (tag : Tag) (txData : List Nat)
      (maxRxLen : Nat) (st : TState),
    (iso14443_4_transceive_fixed crc tag txData maxRxLen st).1 = false →
    (iso14443_4_transceive_fixed crc tag txData maxRxLen st).2.rxData = st.rxData ∧
    (iso14443_4_transceive_fixed crc tag txData maxRxLen st).2.rxLen = st.rxLen := by
  intro crc tag txData maxRxLen st h
  have h2 := classifyLoop_fail_outputs crc tag maxRxLen (WTX_MAX + 1)
    (initExchange crc tag txData st).status
    (initExchange crc tag txData st).rxBits
    (initBuffer crc tag txData st) 1 0
    { st with txLog := st.txLog ++ [iso14443_4_frame crc st.blockNum txData] }
    (by simpa [iso14443_4_transceive_fixed] using h)
  constructor
  · simpa [iso14443_4_transceive_fixed] using h2.2
  · simpa [iso14443_4_transceive_fixed] using h2.1

/-- C10 witness at a concrete input: a transport-error failure leaves the
caller's buffer `[7, 7]` and length word untouched. -/
theorem C10_witness :
    (iso14443_4_transceive_fixed crcZero tagTransportErr [0xA2] 2 stW).2.rxData =
      stW.rxData ∧
    (iso14443_4_transceive_fixed crcZero tagTransportErr [0xA2] 2 stW).2.rxLen =
      stW.rxLen :=
  C10_fail_leaves_outputs crcZero tagTransportErr [0xA2] 2 stW (by decide)




/-- C3 counterexample: a received frame with PCB top two bits `10` (PCB
`0xB2`, low six bits `0x32`, 4 bytes, valid CRC) is not classified as an
S-block and not serviced as a WTX request: the call fails with the
unsupported-block return and transmits nothing beyond the initial I-block
frame (no `[0xF2][m][crc]` echo appears in the transmission log). -/
theorem C3_counterexample :
    iso14443_4_transceive_fixed crcZero tagTopBits10 [0xA2] 2 stW =
      (false, { blockNum := 0, rxLen := 0, rxData := [7, 7],
                txLog := [[0x02, 0xA2, 0, 0]] }) := by
  decide

/-- C3 amended: the source classifies a length- and CRC-valid frame as an
S-block only when the PCB's top two bits are `11` (`pcb & 0xC0 == 0xC0`);
top bits `10` fall into the R-block/unknown branch and fail with the
unsupported-block return, state unchanged.  A frame with top bits `11`, low
six bits `0x32` and at least 4 bytes is serviced as a WTX request: the
engine transmits the echo `[0xF2][m][CRC]` as its next frame. -/
theorem C3_sblock_classification :
    ∀ (crc : List Nat → Nat × Nat) (tag : Tag)
      (maxRxLen fuel status rxBits : Nat) (buffer : List Nat)
      (round wtxCount : Nat) (st : TState),
    status = STATUS_HF_TAG_OK →
    3 * 8 ≤ rxBits →
    buffer.getD (rxBits / 8 - 2) 0 = (crc (buffer.take (rxBits / 8 - 2))).1 →
    buffer.getD (rxBits / 8 - 1) 0 = (crc (buffer.take (rxBits / 8 - 2))).2 →
    (buffer.getD 0 0 &&& 0xC0 = 0x80 →
      classifyLoop crc tag maxRxLen (fuel + 1) status rxBits buffer round
        wtxCount st = (false, st)) ∧
    (buffer.getD 0 0 &&& 0xC0 = 0xC0 → buffer.getD 0 0 &&& 0x3F = 0x32 →
      4 ≤ rxBits / 8 →
      ∃ rest, (classifyLoop crc tag maxRxLen (fuel + 1) status rxBits buffer
        round wtxCount st).2.txLog =
          st.txLog ++ wtxFrame crc (buffer.getD 1 0) :: rest) := by
  intro crc tag maxRxLen fuel status rxBits buffer round wtxCount st
    hst hbits hcrc1 hcrc2
  have h1 : ¬(status ≠ STATUS_HF_TAG_OK ∨ rxBits < 3 * 8) :=
    not_or.mpr ⟨not_not_intro hst, by omega⟩
  have h2 : ¬(buffer.getD (rxBits / 8 - 2) 0 ≠ (crc (buffer.take (rxBits / 8 - 2))).1 ∨
      buffer.getD (rxBits / 8 - 1) 0 ≠ (crc (buffer.take (rxBits / 8 - 2))).2) :=
    not_or.mpr ⟨not_not_intro hcrc1, not_not_intro hcrc2⟩
  constructor
  · intro hpcb
    simp only [classifyLoop]
    rw [if_neg h1, if_neg h2, if_neg (by rw [hpcb]; decide),
      if_neg (by rw [hpcb]; decide)]
  · intro hpcb hlow hlen
    simp only [classifyLoop]
    rw [if_neg h1, if_neg h2, if_neg (by rw [hpcb]; decide), if_pos hpcb,
      if_pos ⟨hlow, hlen⟩]
    split
    · exact ⟨[], by simp⟩
    · obtain ⟨t, ht⟩ := classifyLoop_txLog_extend crc tag maxRxLen fuel
        (tag round (wtxFrame crc (buffer.getD 1 0))).status
        (tag round (wtxFrame crc (buffer.getD 1 0))).rxBits
        (overlayWrite buffer (tag round (wtxFrame crc (buffer.getD 1 0))).data)
        (round + 1) (wtxCount + 1)
        { st with txLog := st.txLog ++ [wtxFrame crc (buffer.getD 1 0)] }
      exact ⟨t, by simpa using ht⟩

/-- C3 amended witness at a concrete input: a CRC-valid 4-byte frame with
PCB `0xB2` (top bits `10`) is rejected with the state unchanged, and one
with PCB `0xF2` (top bits `11`, WTX subtype) gets the echo transmitted. -/
theorem C3_witness :
    (classifyLoop crcZero tagIBlockOk 2 (WTX_MAX + 1) STATUS_HF_TAG_OK 32
      [0xB2, 2, 0, 0] 1 0 stW = (false, stW)) ∧
    ∃ rest, (classifyLoop crcZero tagIBlockOk 2 (WTX_MAX + 1) STATUS_HF_TAG_OK 32
      [0xF2, 2, 0, 0] 1 0 stW).2.txLog =
        stW.txLog ++ wtxFrame crcZero 2 :: rest :=
  ⟨(C3_sblock_classification crcZero tagIBlockOk 2 WTX_MAX STATUS_HF_TAG_OK 32
      [0xB2, 2, 0, 0] 1 0 stW rfl (by norm_num) (by decide) (by decide)).1
      (by decide),
   (C3_sblock_classification crcZero tagIBlockOk 2 WTX_MAX STATUS_HF_TAG_OK 32
      [0xF2, 2, 0, 0] 1 0 stW rfl (by norm_num) (by decide) (by decide)).2
      (by decide) (by decide) (by norm_num)⟩




/-- C5 counterexample: two calls failing for different reasons — one where
the raw exchange reports a transport error, one where the reply's CRC
trailer mismatches — produce byte-for-byte identical caller-visible
results (the same `false` and the same state), so the caller cannot tell
which of the failure kinds occurred; the claim that each error kind is
surfaced as a distinct result is false of the `bool` interface. -/
theorem C5_counterexample :
    iso14443_4_transceive_fixed crcZero tagTransportErr [0xA2] 2 stW =
      iso14443_4_transceive_fixed crcZero tagBadCrc [0xA2] 2 stW ∧
    (iso14443_4_transceive_fixed crcZero tagTransportErr [0xA2] 2 stW).1 =
      false := by
  decide

/-- C5 amended: each of the six failure conditions (transport error, frame
shorter than 3 bytes, CRC mismatch, unsupported block type, payload
exceeding the caller capacity, WTX round limit exceeded) is terminal and is
surfaced to the caller, but all of them as the one undifferentiated value
`false`; the caller learns that the call failed, never which kind of
failure occurred. -/
theorem C5_all_failures_return_false :
    (iso14443_4_transceive_fixed crcZero tagTransportErr [0xA2] 2 stW).1 = false ∧
    (iso14443_4_transceive_fixed crcZero tagShortFrame [0xA2] 2 stW).1 = false ∧
    (iso14443_4_transceive_fixed crcZero tagBadCrc [0xA2] 2 stW).1 = false ∧
    (iso14443_4_transceive_fixed crcZero tagDeselect [0xA2] 2 stW).1 = false ∧
    (iso14443_4_transceive_fixed crcZero tagIBlockOk [0xA2] 0 stW).1 = false ∧
    (iso14443_4_transceive_fixed crcZero (tagAllWtx crcZero 1) [0xA2] 2 stW).1 =
      false := by
  decide

/-- C7: when the initial exchange yields a status-OK, length-valid,
CRC-valid I-block whose payload length `rx_bytes - 3` exceeds the caller
capacity, the call fails and neither `rx_data` nor `*rx_len` is modified —
the `return false` at line 45 precedes both writes, so no partial write
occurs. -/
theorem C7_overflow_no_partial_write :
    ∀ (crc : List Nat → Nat × Nat) (tag : Tag) (txData : List Nat)
      (maxRxLen : Nat) (st : TState),
    (initExchange crc tag txData st).status = STATUS_HF_TAG_OK →
    3 * 8 ≤ (initExchange crc tag txData st).rxBits →
    (initBuffer crc tag txData st).getD
        ((initExchange crc tag txData st).rxBits / 8 - 2) 0 =
      (crc ((initBuffer crc tag txData st).take
        ((initExchange crc tag txData st).rxBits / 8 - 2))).1 →
    (initBuffer crc tag txData st).getD
        ((initExchange crc tag txData st).rxBits / 8 - 1) 0 =
      (crc ((initBuffer crc tag txData st).take
        ((initExchange crc tag txData st).rxBits / 8 - 2))).2 →
    (initBuffer crc tag txData st).getD 0 0 &&& 0xC0 = 0x00 →
    maxRxLen < (initExchange crc tag txData st).rxBits / 8 - 3 →
    (iso14443_4_transceive_fixed crc tag txData maxRxLen st).1 = false ∧
    (iso14443_4_transceive_fixed crc tag txData maxRxLen st).2.rxData = st.rxData ∧
    (iso14443_4_transceive_fixed crc tag txData maxRxLen st).2.rxLen = st.rxLen := by
  intro crc tag txData maxRxLen st hst hbits hcrc1 hcrc2 hpcb hover
  have h1 : ¬((initExchange crc tag txData st).status ≠ STATUS_HF_TAG_OK ∨
      (initExchange crc tag txData st).rxBits < 3 * 8) :=
    not_or.mpr ⟨not_not_intro hst, by omega⟩
  have h2 : ¬((initBuffer crc tag txData st).getD
        ((initExchange crc tag txData st).rxBits / 8 - 2) 0 ≠
      (crc ((initBuffer crc tag txData st).take
        ((initExchange crc tag txData st).rxBits / 8 - 2))).1 ∨
      (initBuffer crc tag txData st).getD
        ((initExchange crc tag txData st).rxBits / 8 - 1) 0 ≠
      (crc ((initBuffer crc tag txData st).take
        ((initExchange crc tag txData st).rxBits / 8 - 2))).2) :=
    not_or.mpr ⟨not_not_intro hcrc1, not_not_intro hcrc2⟩
  simp only [iso14443_4_transceive_fixed, classifyLoop]
  rw [if_neg h1, if_neg h2, if_pos hpcb, if_pos hover]
  exact ⟨rfl, rfl, rfl⟩

/-- C7 witness at a concrete input: a valid I-block reply with 1-byte
payload against capacity 0 fails and leaves the caller buffer `[7, 7]` and
length word untouched. -/
theorem C7_witness :
    (iso14443_4_transceive_fixed crcZero tagIBlockOk [0xA2] 0 stW).1 = false ∧
    (iso14443_4_transceive_fixed crcZero tagIBlockOk [0xA2] 0 stW).2.rxData =
      stW.rxData ∧
    (iso14443_4_transceive_fixed crcZero tagIBlockOk [0xA2] 0 stW).2.rxLen =
      stW.rxLen :=
  C7_overflow_no_partial_write crcZero tagIBlockOk [0xA2] 0 stW (by decide)
    (by decide) (by decide) (by decide) (by decide) (by decide)




theorem wtxFrame_getD0 (crc : List Nat → Nat × Nat) (m : Nat) (junk : List Nat) :
    (wtxFrame crc m ++ junk).getD 0 0 = 0xF2 := by simp [wtxFrame]

theorem wtxFrame_getD1 (crc : List Nat → Nat × Nat) (m : Nat) (junk : List Nat) :
    (wtxFrame crc m ++ junk).getD 1 0 = m := by simp [wtxFrame]

theorem wtxFrame_getD2 (crc : List Nat → Nat × Nat) (m : Nat) (junk : List Nat) :
    (wtxFrame crc m ++ junk).getD (32 / 8 - 2) 0 = (crc [0xF2, m]).1 := by
  simp [wtxFrame]

theorem wtxFrame_getD3 (crc : List Nat → Nat × Nat) (m : Nat) (junk : List Nat) :
    (wtxFrame crc m ++ junk).getD (32 / 8 - 1) 0 = (crc [0xF2, m]).2 := by
  simp [wtxFrame]

theorem wtxFrame_take2 (crc : List Nat → Nat × Nat) (m : Nat) (junk : List Nat) :
    (wtxFrame crc m ++ junk).take (32 / 8 - 2) = [0xF2, m] := by
  simp [wtxFrame]

/-- One iteration of the classification loop on a received S(WTX) request
(status OK, 4 received bytes, frame `[0xF2][m][crc]` possibly followed by
stale buffer bytes): the engine transmits the echo, performs the exchange,
and either fails on the round ceiling or continues classifying the new
response — exactly the source's lines 50–69. -/
theorem classifyLoop_wtx_step (crc : List Nat → Nat × Nat) (tag : Tag)
    (maxRxLen m : Nat) :
    ∀ (fuel round wtxCount : Nat) (st : TState) (junk : List Nat),
    classifyLoop crc tag maxRxLen (fuel + 1) STATUS_HF_TAG_OK 32
      (wtxFrame crc m ++ junk) round wtxCount st =
      if wtxCount + 1 > WTX_MAX then
        (false, { st with txLog := st.txLog ++ [wtxFrame crc m] })
      else
        classifyLoop crc tag maxRxLen fuel
          (tag round (wtxFrame crc m)).status
          (tag round (wtxFrame crc m)).rxBits
          (overlayWrite (wtxFrame crc m ++ junk) (tag round (wtxFrame crc m)).data)
          (round + 1) (wtxCount + 1)
          { st with txLog := st.txLog ++ [wtxFrame crc m] } := by
  intro fuel round wtxCount st junk
  have h1 : ¬(STATUS_HF_TAG_OK ≠ STATUS_HF_TAG_OK ∨ (32 : Nat) < 3 * 8) :=
    not_or.mpr ⟨not_not_intro rfl, by norm_num⟩
  have h2 : ¬((wtxFrame crc m ++ junk).getD (32 / 8 - 2) 0 ≠
      (crc ((wtxFrame crc m ++ junk).take (32 / 8 - 2))).1 ∨
      (wtxFrame crc m ++ junk).getD (32 / 8 - 1) 0 ≠
      (crc ((wtxFrame crc m ++ junk).take (32 / 8 - 2))).2) := by
    rw [wtxFrame_take2]
    exact not_or.mpr ⟨not_not_intro (wtxFrame_getD2 crc m junk),
      not_not_intro (wtxFrame_getD3 crc m junk)⟩
  have h3 : ¬((wtxFrame crc m ++ junk).getD 0 0 &&& 0xC0 = 0x00) := by
    rw [wtxFrame_getD0]; decide
  have h4 : (wtxFrame crc m ++ junk).getD 0 0 &&& 0xC0 = 0xC0 := by
    rw [wtxFrame_getD0]; decide
  have h5 : (wtxFrame crc m ++ junk).getD 0 0 &&& 0x3F = 0x32 ∧ 4 ≤ 32 / 8 :=
    ⟨by rw [wtxFrame_getD0]; decide, by norm_num⟩
  simp only [classifyLoop]
  rw [if_neg h1, if_neg h2, if_neg h3, if_pos h4, if_pos h5, wtxFrame_getD1]




theorem iblockFrame_getD0 (crc : List Nat → Nat × Nat) (junk : List Nat) :
    (iblockFrame crc ++ junk).getD 0 0 = 0x02 := by simp [iblockFrame]

theorem iblockFrame_getD3 (crc : List Nat → Nat × Nat) (junk : List Nat) :
    (iblockFrame crc ++ junk).getD (40 / 8 - 2) 0 =
      (crc [0x02, 0x90, 0x00]).1 := by simp [iblockFrame]

theorem iblockFrame_getD4 (crc : List Nat → Nat × Nat) (junk : List Nat) :
    (iblockFrame crc ++ junk).getD (40 / 8 - 1) 0 =
      (crc [0x02, 0x90, 0x00]).2 := by simp [iblockFrame]

theorem iblockFrame_take3 (crc : List Nat → Nat × Nat) (junk : List Nat) :
    (iblockFrame crc ++ junk).take (40 / 8 - 2) = [0x02, 0x90, 0x00] := by
  simp [iblockFrame]

theorem iblockFrame_payload (crc : List Nat → Nat × Nat) (junk : List Nat) :
    ((iblockFrame crc ++ junk).drop 1).take (40 / 8 - 3) = [0x90, 0x00] := by
  simp [iblockFrame]

/-- One iteration of the classification loop on a received CRC-valid
I-block (status OK, 5 received bytes, payload `[0x90, 0x00]`) against a
caller capacity of at least 2: the source's lines 41–49 — toggle the
sequence bit, copy the payload out, report success. -/
theorem classifyLoop_iblock_step (crc : List Nat → Nat × Nat) (tag : Tag)
    (maxRxLen : Nat) (hcap : 2 ≤ maxRxLen) :
    ∀ (fuel round wtxCount : Nat) (st : TState) (junk : List Nat),
    classifyLoop crc tag maxRxLen (fuel + 1) STATUS_HF_TAG_OK 40
      (iblockFrame crc ++ junk) round wtxCount st =
      (true, { blockNum := st.blockNum ^^^ 1, rxLen := 40 / 8 - 3,
               rxData := [0x90, 0x00] ++ st.rxData.drop (40 / 8 - 3),
               txLog := st.txLog }) := by
  intro fuel round wtxCount st junk
  have h1 : ¬(STATUS_HF_TAG_OK ≠ STATUS_HF_TAG_OK ∨ (40 : Nat) < 3 * 8) :=
    not_or.mpr ⟨not_not_intro rfl, by norm_num⟩
  have h2 : ¬((iblockFrame crc ++ junk).getD (40 / 8 - 2) 0 ≠
      (crc ((iblockFrame crc ++ junk).take (40 / 8 - 2))).1 ∨
      (iblockFrame crc ++ junk).getD (40 / 8 - 1) 0 ≠
      (crc ((iblockFrame crc ++ junk).take (40 / 8 - 2))).2) := by
    rw [iblockFrame_take3]
    exact not_or.mpr ⟨not_not_intro (iblockFrame_getD3 crc junk),
      not_not_intro (iblockFrame_getD4 crc junk)⟩
  have h3 : (iblockFrame crc ++ junk).getD 0 0 &&& 0xC0 = 0x00 := by
    rw [iblockFrame_getD0]; decide
  have h4 : ¬(40 / 8 - 3 > maxRxLen) := by
    have he : (40 : Nat) / 8 - 3 = 2 := by norm_num
    rw [he]; omega
  simp only [classifyLoop]
  rw [if_neg h1, if_neg h2, if_pos h3, if_neg h4, iblockFrame_payload]

/-- A tag that requests S(WTX) on every round drives the loop through its
remaining `WTX_MAX + 1 - wtxCount` echo transmissions and then fails on the
round ceiling, leaving everything but the transmission log unchanged. -/
theorem classifyLoop_allWtx (crc : List Nat → Nat × Nat) (m maxRxLen : Nat) :
    ∀ (fuel wtxCount round : Nat) (st : TState) (junk : List Nat),
    wtxCount ≤ WTX_MAX → WTX_MAX - wtxCount < fuel →
    classifyLoop crc (tagAllWtx crc m) maxRxLen fuel STATUS_HF_TAG_OK 32
      (wtxFrame crc m ++ junk) round wtxCount st =
      (false, { st with
        txLog := st.txLog ++
          List.replicate (WTX_MAX + 1 - wtxCount) (wtxFrame crc m) }) := by
  intro fuel
  induction fuel with
  | zero => intro wtxCount round st junk hc hf; omega
  | succ f ih =>
    intro wtxCount round st junk hc hf
    rw [classifyLoop_wtx_step]
    by_cases hg : wtxCount + 1 > WTX_MAX
    · rw [if_pos hg]
      have he : WTX_MAX + 1 - wtxCount = 1 := by unfold WTX_MAX at *; omega
      rw [he]
      simp
    · rw [if_neg hg]
      have hov : overlayWrite (wtxFrame crc m ++ junk) (wtxFrame crc m) =
          wtxFrame crc m ++ junk := by
        simp [overlayWrite, wtxFrame]
      have hst : (tagAllWtx crc m round (wtxFrame crc m)).status =
          STATUS_HF_TAG_OK := rfl
      have hbits : (tagAllWtx crc m round (wtxFrame crc m)).rxBits = 32 := rfl
      have hdata : (tagAllWtx crc m round (wtxFrame crc m)).data =
          wtxFrame crc m := rfl
      rw [hst, hbits, hdata, hov,
        ih (wtxCount + 1) (round + 1)
          { st with txLog := st.txLog ++ [wtxFrame crc m] } junk
          (by unfold WTX_MAX at *; omega) (by omega)]
      have hr : WTX_MAX + 1 - wtxCount = (WTX_MAX + 1 - (wtxCount + 1)) + 1 := by
        unfold WTX_MAX at *; omega
      rw [hr, List.replicate_succ]
      simp




theorem tagKWtxData_length_le (crc : List Nat → Nat × Nat) (m k r : Nat) :
    (tagKWtxData crc m k r).length ≤ 260 := by
  unfold tagKWtxData
  split <;> simp [wtxFrame, iblockFrame]

/-- Driving the loop against the `k`-WTX tag from `wtxCount` pending rounds:
the remaining `k - wtxCount` S(WTX) requests are echoed, then the valid
I-block response is classified and the call succeeds. -/
theorem classifyLoop_kWtx (crc : List Nat → Nat × Nat) (m k : Nat)
    (hk : k ≤ WTX_MAX) :
    ∀ (fuel wtxCount : Nat) (st : TState) (junk : List Nat),
    wtxCount ≤ k → k - wtxCount < fuel →
    classifyLoop crc (tagKWtx crc m k) 2 fuel STATUS_HF_TAG_OK
      (tagKWtxBits k wtxCount) (tagKWtxData crc m k wtxCount ++ junk)
      (wtxCount + 1) wtxCount st =
      (true, { blockNum := st.blockNum ^^^ 1, rxLen := 40 / 8 - 3,
               rxData := [0x90, 0x00] ++ st.rxData.drop (40 / 8 - 3),
               txLog := st.txLog ++
                 List.replicate (k - wtxCount) (wtxFrame crc m) }) := by
  intro fuel
  induction fuel with
  | zero => intro wtxCount st junk hc hf; omega
  | succ f ih =>
    intro wtxCount st junk hc hf
    by_cases hck : wtxCount < k
    · have hb : tagKWtxBits k wtxCount = 32 := by simp [tagKWtxBits, hck]
      have hd : tagKWtxData crc m k wtxCount = wtxFrame crc m := by
        simp [tagKWtxData, hck]
      rw [hb, hd, classifyLoop_wtx_step,
        if_neg (by unfold WTX_MAX at *; omega)]
      have hs : (tagKWtx crc m k (wtxCount + 1) (wtxFrame crc m)).status =
          STATUS_HF_TAG_OK := rfl
      have hbb : (tagKWtx crc m k (wtxCount + 1) (wtxFrame crc m)).rxBits =
          tagKWtxBits k (wtxCount + 1) := rfl
      have hdd : (tagKWtx crc m k (wtxCount + 1) (wtxFrame crc m)).data =
          tagKWtxData crc m k (wtxCount + 1) := rfl
      have hov : overlayWrite (wtxFrame crc m ++ junk)
          (tagKWtxData crc m k (wtxCount + 1)) =
          tagKWtxData crc m k (wtxCount + 1) ++
            (wtxFrame crc m ++ junk).drop
              (min (tagKWtxData crc m k (wtxCount + 1)).length 260) := by
        rw [overlayWrite, List.take_of_length_le (tagKWtxData_length_le crc m k _)]
      rw [hs, hbb, hdd, hov,
        ih (wtxCount + 1) { st with txLog := st.txLog ++ [wtxFrame crc m] }
          ((wtxFrame crc m ++ junk).drop
            (min (tagKWtxData crc m k (wtxCount + 1)).length 260))
          (by omega) (by omega)]
      have hr : k - wtxCount = (k - (wtxCount + 1)) + 1 := by omega
      rw [hr, List.replicate_succ]
      simp
    · have he : wtxCount = k := by omega
      have hb : tagKWtxBits k wtxCount = 40 := by simp [tagKWtxBits, hck]
      have hd : tagKWtxData crc m k wtxCount = iblockFrame crc := by
        simp [tagKWtxData, hck]
      rw [hb, hd, classifyLoop_iblock_step crc (tagKWtx crc m k) 2 (le_refl 2)]
      rw [he]
      simp

/-- Full-run description of the spec-completed transceive against a tag
that answers every exchange with an S(WTX) request: the initial I-block
frame and exactly `WTX_MAX + 1` echo frames are transmitted, then the call
fails on the round ceiling with everything else unchanged. -/
theorem transceive_allWtx_eq (crc : List Nat → Nat × Nat)
    (m txData maxRxLen : _) (st : TState) :
    iso14443_4_transceive_fixed crc (tagAllWtx crc m) txData maxRxLen st =
      (false, { st with
        txLog := st.txLog ++ iso14443_4_frame crc st.blockNum txData ::
          List.replicate (WTX_MAX + 1) (wtxFrame crc m) }) := by
  have hd0 : (initExchange crc (tagAllWtx crc m) txData st).data =
      wtxFrame crc m := rfl
  have hbuf : initBuffer crc (tagAllWtx crc m) txData st =
      wtxFrame crc m ++ (iso14443_4_frame crc st.blockNum txData).drop
        (min (wtxFrame crc m).length 260) := by
    rw [initBuffer, overlayWrite, hd0,
      List.take_of_length_le (by simp [wtxFrame])]
  have hs : (initExchange crc (tagAllWtx crc m) txData st).status =
      STATUS_HF_TAG_OK := rfl
  have hb : (initExchange crc (tagAllWtx crc m) txData st).rxBits = 32 := rfl
  simp only [iso14443_4_transceive_fixed]
  rw [hs, hb, hbuf,
    classifyLoop_allWtx crc m maxRxLen (WTX_MAX + 1) 0 1
      { st with txLog := st.txLog ++ [iso14443_4_frame crc st.blockNum txData] }
      ((iso14443_4_frame crc st.blockNum txData).drop
        (min (wtxFrame crc m).length 260))
      (Nat.zero_le _) (by omega)]
  simp

/-- Full-run description of the spec-completed transceive against the
`k`-WTX tag (`k ≤ WTX_MAX`): the initial I-block frame and exactly `k` echo
frames are transmitted, the valid I-block that follows is classified, and
the call succeeds. -/
theorem transceive_kWtx_eq (crc : List Nat → Nat × Nat) (m k : Nat)
    (txData : List Nat) (st : TState) (hk : k ≤ WTX_MAX) :
    iso14443_4_transceive_fixed crc (tagKWtx crc m k) txData 2 st =
      (true, { blockNum := st.blockNum ^^^ 1, rxLen := 40 / 8 - 3,
               rxData := [0x90, 0x00] ++ st.rxData.drop (40 / 8 - 3),
               txLog := st.txLog ++ iso14443_4_frame crc st.blockNum txData ::
                 List.replicate k (wtxFrame crc m) }) := by
  have hd0 : (initExchange crc (tagKWtx crc m k) txData st).data =
      tagKWtxData crc m k 0 := rfl
  have hbuf : initBuffer crc (tagKWtx crc m k) txData st =
      tagKWtxData crc m k 0 ++ (iso14443_4_frame crc st.blockNum txData).drop
        (min (tagKWtxData crc m k 0).length 260) := by
    rw [initBuffer, overlayWrite, hd0,
      List.take_of_length_le (tagKWtxData_length_le crc m k 0)]
  have hs : (initExchange crc (tagKWtx crc m k) txData st).status =
      STATUS_HF_TAG_OK := rfl
  have hb : (initExchange crc (tagKWtx crc m k) txData st).rxBits =
      tagKWtxBits k 0 := rfl
  simp only [iso14443_4_transceive_fixed]
  rw [hs, hb, hbuf,
    classifyLoop_kWtx crc m k hk (WTX_MAX + 1) 0
      { st with txLog := st.txLog ++ [iso14443_4_frame crc st.blockNum txData] }
      ((iso14443_4_frame crc st.blockNum txData).drop
        (min (tagKWtxData crc m k 0).length 260))
      (Nat.zero_le _) (by omega)]
  simp




theorem firstPcb_mod (st : TState) : firstPcb st % 2 = st.blockNum % 2 := by
  unfold firstPcb
  rw [Nat.and_one_is_mod]
  rcases Nat.mod_two_eq_zero_or_one st.blockNum with h2 | h2 <;> rw [h2] <;> decide

theorem xor_one_mod_two (b : Nat) : (b ^^^ 1) % 2 ≠ b % 2 := by
  have h2 : (b ^^^ 1) % 2 = (b % 2) ^^^ 1 := by
    rw [← Nat.and_one_is_mod, ← Nat.and_one_is_mod, Nat.and_xor_distrib_right]
    simp [Nat.and_self]
  rw [h2]
  rcases Nat.mod_two_eq_zero_or_one b with h | h <;> rw [h] <;> decide

/-- C4: against a tag that answers every round with a valid S(WTX) request,
the call transmits the initial I-block frame plus exactly `WTX_MAX + 1 = 11`
echo frames — failing upon the 11th consecutive request, right after its
echo exchange, when `wtx_count` exceeds the ceiling — while against a tag
that sends `k ≤ 10` consecutive WTX requests followed by a valid I-block,
the call transmits exactly `k` echoes, classifies the subsequent I-block
frame, and succeeds; so the WTX sub-loop runs at most 11 rounds. -/
theorem C4_wtx_round_bound :
    (∀ (crc : List Nat → Nat × Nat) (m : Nat) (txData : List Nat)
       (maxRxLen : Nat) (st : TState),
      (iso14443_4_transceive_fixed crc (tagAllWtx crc m) txData maxRxLen st).1 =
        false ∧
      (iso14443_4_transceive_fixed crc (tagAllWtx crc m) txData maxRxLen
          st).2.txLog =
        st.txLog ++ iso14443_4_frame crc st.blockNum txData ::
          List.replicate (WTX_MAX + 1) (wtxFrame crc m)) ∧
    (∀ (crc : List Nat → Nat × Nat) (m k : Nat) (txData : List Nat)
       (st : TState), k ≤ WTX_MAX →
      (iso14443_4_transceive_fixed crc (tagKWtx crc m k) txData 2 st).1 =
        true ∧
      (iso14443_4_transceive_fixed crc (tagKWtx crc m k) txData 2 st).2.txLog =
        st.txLog ++ iso14443_4_frame crc st.blockNum txData ::
          List.replicate k (wtxFrame crc m)) := by
  constructor
  · intro crc m txData maxRxLen st
    rw [transceive_allWtx_eq]
    exact ⟨rfl, rfl⟩
  · intro crc m k txData st hk
    rw [transceive_kWtx_eq crc m k txData st hk]
    exact ⟨rfl, rfl⟩

/-- C4 witness at the boundary: `k = 10` consecutive WTX requests still end
in a successful classification of the subsequent I-block frame, with
exactly ten echoes transmitted after the initial frame. -/
theorem C4_witness :
    10 ≤ WTX_MAX ∧
    ((iso14443_4_transceive_fixed crcZero (tagKWtx crcZero 1 10) [0xA2] 2
        stW).1 = true ∧
     (iso14443_4_transceive_fixed crcZero (tagKWtx crcZero 1 10) [0xA2] 2
        stW).2.txLog =
       stW.txLog ++ iso14443_4_frame crcZero stW.blockNum [0xA2] ::
         List.replicate 10 (wtxFrame crcZero 1)) :=
  ⟨by decide, C4_wtx_round_bound.2 crcZero 1 10 [0xA2] stW (by decide)⟩

/-- C6: whenever a received frame is classified as an S(WTX) request
carrying multiplier byte `m` (its second byte), the next frame the engine
hands to the raw exchange primitive is exactly the four bytes
`[0xF2][m][CRC low][CRC high]`, the trailer computed over `[0xF2, m]`. -/
theorem C6_wtx_echo :
    ∀ (crc : List Nat → Nat × Nat) (tag : Tag)
      (maxRxLen fuel status rxBits : Nat) (buffer : List Nat)
      (round wtxCount : Nat) (st : TState),
    status = STATUS_HF_TAG_OK →
    3 * 8 ≤ rxBits →
    buffer.getD (rxBits / 8 - 2) 0 = (crc (buffer.take (rxBits / 8 - 2))).1 →
    buffer.getD (rxBits / 8 - 1) 0 = (crc (buffer.take (rxBits / 8 - 2))).2 →
    buffer.getD 0 0 &&& 0xC0 = 0xC0 →
    buffer.getD 0 0 &&& 0x3F = 0x32 →
    4 ≤ rxBits / 8 →
    ∃ rest, (classifyLoop crc tag maxRxLen (fuel + 1) status rxBits buffer
        round wtxCount st).2.txLog =
      st.txLog ++ ([0xF2, buffer.getD 1 0] ++
        [(crc [0xF2, buffer.getD 1 0]).1, (crc [0xF2, buffer.getD 1 0]).2]) ::
          rest := by
  intro crc tag maxRxLen fuel status rxBits buffer round wtxCount st
    hst hbits hcrc1 hcrc2 hpcb hlow hlen
  have h1 : ¬(status ≠ STATUS_HF_TAG_OK ∨ rxBits < 3 * 8) :=
    not_or.mpr ⟨not_not_intro hst, by omega⟩
  have h2 : ¬(buffer.getD (rxBits / 8 - 2) 0 ≠
      (crc (buffer.take (rxBits / 8 - 2))).1 ∨
      buffer.getD (rxBits / 8 - 1) 0 ≠
      (crc (buffer.take (rxBits / 8 - 2))).2) :=
    not_or.mpr ⟨not_not_intro hcrc1, not_not_intro hcrc2⟩
  simp only [classifyLoop]
  rw [if_neg h1, if_neg h2, if_neg (by rw [hpcb]; decide), if_pos hpcb,
    if_pos ⟨hlow, hlen⟩]
  split
  · exact ⟨[], by simp [wtxFrame]⟩
  · obtain ⟨t, ht⟩ := classifyLoop_txLog_extend crc tag maxRxLen fuel
      (tag round (wtxFrame crc (buffer.getD 1 0))).status
      (tag round (wtxFrame crc (buffer.getD 1 0))).rxBits
      (overlayWrite buffer (tag round (wtxFrame crc (buffer.getD 1 0))).data)
      (round + 1) (wtxCount + 1)
      { st with txLog := st.txLog ++ [wtxFrame crc (buffer.getD 1 0)] }
    exact ⟨t, by simpa [wtxFrame] using ht⟩

/-- C6 witness at a concrete input: servicing the S(WTX) request
`[0xF2, 5, 0, 0]` transmits exactly `[0xF2, 5, (crc [0xF2,5]).1,
(crc [0xF2,5]).2]` next. -/
theorem C6_witness :
    ∃ rest, (classifyLoop crcZero tagIBlockOk 2 (WTX_MAX + 1)
        STATUS_HF_TAG_OK 32 [0xF2, 5, 0, 0] 1 0 stW).2.txLog =
      stW.txLog ++ ([0xF2, [0xF2, 5, 0, 0].getD 1 0] ++
        [(crcZero [0xF2, [0xF2, 5, 0, 0].getD 1 0]).1,
         (crcZero [0xF2, [0xF2, 5, 0, 0].getD 1 0]).2]) :: rest :=
  C6_wtx_echo crcZero tagIBlockOk 2 WTX_MAX STATUS_HF_TAG_OK 32
    [0xF2, 5, 0, 0] 1 0 stW rfl (by norm_num) (by decide) (by decide)
    (by decide) (by decide) (by norm_num)




/-- C8 counterexample: a well-formed I-block response with a valid CRC
(status OK, 4 bytes, PCB top bits `00`, trailer matching `crcZero`) for
which `transceive` nevertheless returns failure, because its 1-byte payload
exceeds the caller capacity 0 — refuting the unconditional "returns
success". -/
theorem C8_counterexample :
    (initExchange crcZero tagIBlockOk [0xA2] stW).status = STATUS_HF_TAG_OK ∧
    3 * 8 ≤ (initExchange crcZero tagIBlockOk [0xA2] stW).rxBits ∧
    (initBuffer crcZero tagIBlockOk [0xA2] stW).getD 0 0 &&& 0xC0 = 0x00 ∧
    (initBuffer crcZero tagIBlockOk [0xA2] stW).getD 2 0 =
      (crcZero ((initBuffer crcZero tagIBlockOk [0xA2] stW).take 2)).1 ∧
    (initBuffer crcZero tagIBlockOk [0xA2] stW).getD 3 0 =
      (crcZero ((initBuffer crcZero tagIBlockOk [0xA2] stW).take 2)).2 ∧
    (iso14443_4_transceive_fixed crcZero tagIBlockOk [0xA2] 0 stW).1 = false := by
  decide

/-- C8 amended: (i) for any well-formed I-block response with a valid CRC
*whose payload fits the caller capacity*, the call succeeds and the
outbound PCB low bit of the immediately following call differs from this
call's; (ii) after `iso14443_4_reset_block_num` the next call transmits
PCB `0x02` regardless of prior state; (iii) WTX rounds never toggle the
sequence bit. -/
theorem C8_sequence_toggle_reset_wtx :
    (∀ (crc : List Nat → Nat × Nat) (tag : Tag) (txData : List Nat)
       (maxRxLen : Nat) (st : TState),
      (initExchange crc tag txData st).status = STATUS_HF_TAG_OK →
      3 * 8 ≤ (initExchange crc tag txData st).rxBits →
      (initBuffer crc tag txData st).getD
          ((initExchange crc tag txData st).rxBits / 8 - 2) 0 =
        (crc ((initBuffer crc tag txData st).take
          ((initExchange crc tag txData st).rxBits / 8 - 2))).1 →
      (initBuffer crc tag txData st).getD
          ((initExchange crc tag txData st).rxBits / 8 - 1) 0 =
        (crc ((initBuffer crc tag txData st).take
          ((initExchange crc tag txData st).rxBits / 8 - 2))).2 →
      (initBuffer crc tag txData st).getD 0 0 &&& 0xC0 = 0x00 →
      (initExchange crc tag txData st).rxBits / 8 - 3 ≤ maxRxLen →
      (iso14443_4_transceive_fixed crc tag txData maxRxLen st).1 = true ∧
      firstPcb (iso14443_4_transceive_fixed crc tag txData maxRxLen st).2 % 2 ≠
        firstPcb st % 2) ∧
    (∀ (crc : List Nat → Nat × Nat) (st : TState) (txData : List Nat),
      firstPcb (iso14443_4_reset_block_num st) = 0x02 ∧
      (iso14443_4_frame crc (iso14443_4_reset_block_num st).blockNum
        txData).getD 0 0 = 0x02) ∧
    (∀ (crc : List Nat → Nat × Nat) (m : Nat) (txData : List Nat)
       (maxRxLen : Nat) (st : TState),
      (iso14443_4_transceive_fixed crc (tagAllWtx crc m) txData maxRxLen
        st).2.blockNum = st.blockNum) := by
  refine ⟨?_, ?_, ?_⟩
  · intro crc tag txData maxRxLen st hst hbits hcrc1 hcrc2 hpcb hcap
    have h1 : ¬((initExchange crc tag txData st).status ≠ STATUS_HF_TAG_OK ∨
        (initExchange crc tag txData st).rxBits < 3 * 8) :=
      not_or.mpr ⟨not_not_intro hst, by omega⟩
    have h2 : ¬((initBuffer crc tag txData st).getD
          ((initExchange crc tag txData st).rxBits / 8 - 2) 0 ≠
        (crc ((initBuffer crc tag txData st).take
          ((initExchange crc tag txData st).rxBits / 8 - 2))).1 ∨
        (initBuffer crc tag txData st).getD
          ((initExchange crc tag txData st).rxBits / 8 - 1) 0 ≠
        (crc ((initBuffer crc tag txData st).take
          ((initExchange crc tag txData st).rxBits / 8 - 2))).2) :=
      not_or.mpr ⟨not_not_intro hcrc1, not_not_intro hcrc2⟩
    have h4 : ¬((initExchange crc tag txData st).rxBits / 8 - 3 > maxRxLen) := by
      omega
    simp only [iso14443_4_transceive_fixed, classifyLoop]
    rw [if_neg h1, if_neg h2, if_pos hpcb, if_neg h4]
    refine ⟨rfl, ?_⟩
    rw [firstPcb_mod, firstPcb_mod]
    exact xor_one_mod_two st.blockNum
  · intro crc st txData
    constructor
    · simp [firstPcb, iso14443_4_reset_block_num]
    · simp [iso14443_4_frame, iso14443_4_reset_block_num]
  · intro crc m txData maxRxLen st
    rw [transceive_allWtx_eq]

/-- C8 amended witness at a concrete input: a fitting I-block reply
succeeds and flips the outbound PCB low bit for the following call. -/
theorem C8_witness :
    (iso14443_4_transceive_fixed crcZero tagIBlockOk [0xA2] 2 stW).1 = true ∧
    firstPcb (iso14443_4_transceive_fixed crcZero tagIBlockOk [0xA2] 2 stW).2 %
        2 ≠ firstPcb stW % 2 :=
  C8_sequence_toggle_reset_wtx.1 crcZero tagIBlockOk [0xA2] 2 stW (by decide)
    (by decide) (by decide) (by decide) (by decide) (by decide)


end Iso14443
